import Mathlib

/-!
# speedtest_exporter

A shallow embedding of `speedtest_exporter.go`: the three Prometheus gauges,
the measurement loop started by `main`, the startup sequence of `main`, and
the landing page handler.

Effects (log lines, library calls, sleeps, exits) are recorded as a
chronological list of `Event`s.  The results of calls into code that is not
part of the file (`speedtest.NewClient`, `client.NetworkMetrics`,
`http.ListenAndServe`, `version.Version`) are inputs of the model, and so are
the patterns the imported `net/http/pprof` has put on the default mux.  The two
route registrations of `main` follow the registration rule of `http.ServeMux`:
an empty pattern and a pattern registered before make the call panic.  The
other library calls whose result the program ignores
(`prometheus.MustRegister` on three gauges of different names, the loggers)
are recorded as events and return normally.
-/

namespace SpeedtestExporter

/-! ## Values -/

/-- A Go `float64`, carried as its IEEE-754 bit pattern.  The program never
computes with a reading, it only moves it from the map of the provider to a gauge. -/
structure Float64 where
  bits : Nat
deriving DecidableEq, Repr

/-- The zero value of `float64` (`+0.0`). -/
def Float64.zero : Float64 := ⟨0⟩

/-- A Go `map[string]float64`, as returned by `client.NetworkMetrics()`:
`lookup k` is `none` when the key is absent (the nil map is absent everywhere). -/
structure MetricsMap where
  lookup : String → Option Float64

/-- The Go index expression `m[k]`: the stored value, or the zero value of the
element type when the key is absent. -/
def MetricsMap.index (m : MetricsMap) (k : String) : Float64 :=
  match m.lookup k with
  | some v => v
  | none => Float64.zero

/-! ## Gauges -/

/-- The constant `namespace` of the source (a reserved word here). -/
def metricsNamespace : String := "speedtest"

/-- The fields of `prometheus.GaugeOpts` that the source fills in. -/
structure GaugeOpts where
  Namespace : String
  Name : String
  Help : String
deriving DecidableEq, Repr

/-- A gauge: its options and its current value. -/
structure Gauge where
  opts : GaugeOpts
  value : Float64
deriving DecidableEq, Repr

/-- Modelled from the spec: the gauge type of the Prometheus client library is
not part of the source file.  A gauge holds the zero value from its creation
until the first `Set`. -/
def NewGauge (o : GaugeOpts) : Gauge := ⟨o, Float64.zero⟩

/-- Modelled from the spec: the gauge type of the Prometheus client library is
not part of the source file.  `Set` overwrites the current value. -/
def Gauge.Set (g : Gauge) (v : Float64) : Gauge := { g with value := v }

/-- The three gauge variables declared in `main`. -/
inductive GaugeVar
  | ping
  | download
  | upload
deriving DecidableEq, Repr

/-- The registry state the loop writes and the metrics endpoint reads. -/
structure Gauges where
  ping : Gauge
  download : Gauge
  upload : Gauge
deriving DecidableEq, Repr

/-- The gauges as created in the `var` block of `main` (lines 51 to 65). -/
def newGauges : Gauges :=
  { ping := NewGauge ⟨metricsNamespace, "ping", "Latency (ms)"⟩
    download := NewGauge ⟨metricsNamespace, "download", "Download bandwidth (Mbps)."⟩
    upload := NewGauge ⟨metricsNamespace, "upload", "Upload bandwidth (Mbps)."⟩ }

/-! ## Events -/

/-- Log levels used by the source. -/
inductive Level
  | info
  | error
  | fatal
deriving DecidableEq, Repr

/-- Observable effects of the program, one constructor per kind of call. -/
inductive Event
  | printf (text : String)
  | osExit (code : Nat)
  | log (lvl : Level) (msg : String)
  | newClient (configURL serverURL : String)
  | mustRegister (gs : List GaugeVar)
  | goLoop
  | httpHandle (pattern : String)
  | httpHandleFunc (pattern : String)
  | listenAndServe (addr : String)
  | panicked
  | networkMetrics
  | set (g : GaugeVar) (v : Float64)
  | sleep (ns : Nat)
deriving DecidableEq, Repr

/-- The effect of one event on the gauges: only `Set` calls change them. -/
def Gauges.apply (g : Gauges) : Event → Gauges
  | Event.set GaugeVar.ping v => { g with ping := g.ping.Set v }
  | Event.set GaugeVar.download v => { g with download := g.download.Set v }
  | Event.set GaugeVar.upload v => { g with upload := g.upload.Set v }
  | _ => g

/-- The effect of a sequence of events on the gauges, in order. -/
def Gauges.applyAll (g : Gauges) (es : List Event) : Gauges :=
  es.foldl Gauges.apply g

/-! ## The measurement loop (lines 92 to 109) -/

/-- The constant `time.Second`, in nanoseconds. -/
def Second : Nat := 1000000000

/-- The local `interval := 60 * time.Second` of `main`. -/
def interval : Nat := 60 * Second

/-- What one call of `client.NetworkMetrics()` returns: the pair
`(metrics, err)`, where `err = none` stands for a nil error. -/
structure ProviderResult where
  metrics : MetricsMap
  err : Option String

/-- How control leaves a block of Go statements. -/
inductive Flow
  | fallthrough
  | continueLoop
  | breakLoop
  | exit (code : Nat)
deriving DecidableEq, Repr

/-- Events of one pass through a block, and how control left it. -/
structure BodyResult where
  events : List Event
  flow : Flow
deriving DecidableEq, Repr

/-- One pass through the body of the `for` loop, given what the provider call
returned in that pass. -/
def loopBody (r : ProviderResult) : BodyResult :=
  let start := [Event.log Level.info "Speedtest exporter starting", Event.networkMetrics]
  match r.err with
  | some _ =>
    { events := start ++ [Event.log Level.error "Failed to gather metrics"]
      flow := Flow.continueLoop }
  | none =>
    { events := start ++
        [ Event.set GaugeVar.ping (r.metrics.index "ping"),
          Event.set GaugeVar.download (r.metrics.index "download"),
          Event.set GaugeVar.upload (r.metrics.index "upload"),
          Event.log Level.info "Speedtest exporter finished",
          Event.sleep interval ]
      flow := Flow.fallthrough }

/-- State of the running loop: the gauges and everything the loop did so far. -/
structure LoopState where
  gauges : Gauges
  trace : List Event
deriving DecidableEq, Repr

/-- The loop at the moment the goroutine is started. -/
def LoopState.start : LoopState := ⟨newGauges, []⟩

/-- One iteration of `for { ... }`: run the body, then go round again when the
body ran to its end or hit `continue`; `none` means the loop is over. -/
def forStep (s : LoopState) (r : ProviderResult) : Option LoopState :=
  let b := loopBody r
  let s' : LoopState := ⟨s.gauges.applyAll b.events, s.trace ++ b.events⟩
  match b.flow with
  | Flow.fallthrough => some s'
  | Flow.continueLoop => some s'
  | Flow.breakLoop => none
  | Flow.exit _ => none

/-- The loop driven through a finite sequence of provider results, one per
iteration. -/
def runLoop (s : LoopState) : List ProviderResult → Option LoopState
  | [] => some s
  | r :: rs =>
    match forStep s r with
    | some s' => runLoop s' rs
    | none => none

/-! ## Startup (`main`, lines 42 to 124) -/

/-- The parsed command-line flags. -/
structure Flags where
  showVersion : Bool
  listenAddress : String
  metricsPath : String
  configURL : String
  serverURL : String
deriving DecidableEq, Repr

/-- A non-nil `*speedtest.Client`.  The program only compares it with nil and
calls `NetworkMetrics` on it. -/
structure Client where
  handle : Nat
deriving DecidableEq, Repr

/-- What `speedtest.NewClient` returns: the pair `(client, err)`, with `none`
for a nil pointer and for a nil error. -/
structure NewClientResult where
  client : Option Client
  err : Option String
deriving DecidableEq, Repr

/-- Everything `main` takes from outside the source file. -/
structure Env where
  /-- The constant `version.Version`. -/
  version : String
  /-- The string `prom_version.Info()`. -/
  promInfo : String
  /-- The string `prom_version.BuildContext()`. -/
  buildContext : String
  /-- The constructor `speedtest.NewClient`. -/
  newClient : String → String → NewClientResult
  /-- The error `http.ListenAndServe` returns on the given address, or `none`
  when it keeps serving. -/
  listenAndServe : String → Option String
  /-- The patterns on `http.DefaultServeMux` when `main` starts: those the
  `init` of the imported `net/http/pprof` has registered. -/
  muxPatterns : List String

/-- Where `main` ends up. -/
inductive Outcome
  | exited (code : Nat)
  | serving
deriving DecidableEq, Repr

/-- Events of `main`, and where it ended up. -/
structure Run where
  events : List Event
  outcome : Outcome
deriving DecidableEq, Repr

/-- The registration rule of `http.ServeMux` (`Handle`, `HandleFunc`): the call
returns normally when the pattern is not empty and no handler is registered
for it yet, and panics otherwise. -/
def muxAccepts (registered : List String) (pattern : String) : Bool :=
  decide (pattern ≠ "") && !registered.contains pattern

/-- The function `main` from `flag.Parse()` on, with the gauges of `newGauges`
already created by its `var` block.  A panic of the main goroutine ends the
process with exit code 2. -/
def main (env : Env) (flags : Flags) : Run :=
  if flags.showVersion then
    { events := [Event.printf ("Speedtest Prometheus exporter. v" ++ env.version ++ "\n"),
                 Event.osExit 0]
      outcome := Outcome.exited 0 }
  else
    let hello :=
      [ Event.log Level.info ("Starting speedtest exporter " ++ env.promInfo),
        Event.log Level.info ("Build context " ++ env.buildContext),
        Event.newClient flags.configURL flags.serverURL ]
    let res := env.newClient flags.configURL flags.serverURL
    match res.err with
    | some e =>
      { events := hello ++ [Event.log Level.error ("Can\x27t create exporter : " ++ e),
                            Event.osExit 1]
        outcome := Outcome.exited 1 }
    | none =>
      match res.client with
      | none =>
        { events := hello ++ [Event.log Level.error "Speedtest client not configured.",
                              Event.osExit 1]
          outcome := Outcome.exited 1 }
      | some _ =>
        let started := hello ++
          [ Event.log Level.info "Register exporter",
            Event.mustRegister [GaugeVar.ping, GaugeVar.upload, GaugeVar.download],
            Event.goLoop,
            Event.httpHandle flags.metricsPath ]
        if muxAccepts env.muxPatterns flags.metricsPath then
          if muxAccepts (flags.metricsPath :: env.muxPatterns) "/" then
            let up := started ++
              [ Event.httpHandleFunc "/",
                Event.log Level.info ("Listening on " ++ flags.listenAddress),
                Event.listenAndServe flags.listenAddress ]
            match env.listenAndServe flags.listenAddress with
            | none => { events := up, outcome := Outcome.serving }
            | some e =>
              { events := up ++ [Event.log Level.fatal e, Event.osExit 1]
                outcome := Outcome.exited 1 }
          else
            { events := started ++ [Event.httpHandleFunc "/", Event.panicked]
              outcome := Outcome.exited 2 }
        else
          { events := started ++ [Event.panicked]
            outcome := Outcome.exited 2 }

/-! ## Landing page (lines 112 to 120) -/

/-- An incoming request, as far as a handler could look at it. -/
structure Request where
  method : String
  path : String
  body : String
deriving DecidableEq, Repr

/-- The text before the telemetry path in the landing page. -/
def pageHead : String :=
  "<html>\n             <head><title>Speedtest Exporter</title></head>\n             <body>\n             <h1>Speedtest Exporter</h1>\n             <p><a href=\x27"

/-- The text after the telemetry path in the landing page. -/
def pageTail : String :=
  "\x27>Metrics</a></p>\n             </body>\n             </html>"

/-- The bytes the handler of `"/"` writes: the closure has the flag value, the
gauges and the request in scope. -/
def rootHandler (metricsPath : String) (_gauges : Gauges) (_r : Request) : String :=
  pageHead ++ metricsPath ++ pageTail

/-- The anchor whose link target is the given path. -/
def metricsAnchor (target : String) : String :=
  "<a href=\x27" ++ target ++ "\x27>Metrics</a>"

/-! ## Reading a trace -/

/-- Whether an event is a wait of one full interval. -/
def isIntervalSleep (e : Event) : Bool :=
  decide (e = Event.sleep interval)

/-- Whether an event is a `Set` on some gauge. -/
def isSet : Event → Bool
  | Event.set _ _ => true
  | _ => false

/-- Whether every provider call of a trace but the first comes after a wait of
one full interval since the call before it; `slept` tells whether such a wait
has been seen since the last call. -/
def pacedFrom : Bool → List Event → Bool
  | _, [] => true
  | slept, Event.networkMetrics :: t => slept && pacedFrom false t
  | slept, e :: t => pacedFrom (slept || isIntervalSleep e) t

/-- Whether a trace never has two provider calls without a full interval wait
between them. -/
def paced (t : List Event) : Bool := pacedFrom true t

/-- The part of a trace that comes before its first provider call. -/
def beforeFirstCall (t : List Event) : List Event :=
  t.takeWhile (fun e => decide (e ≠ Event.networkMetrics))

/-- Whether the first provider call of a trace comes after a wait of one full
interval (true also for a trace without a provider call). -/
def idleBeforeFirstCall (t : List Event) : Bool :=
  !t.contains Event.networkMetrics || (beforeFirstCall t).any isIntervalSleep

/-! ## Sample inputs -/

/-- A successful provider result with all three keys. -/
def fullReading : ProviderResult :=
  { metrics := ⟨fun k =>
      if k = "ping" then some ⟨12⟩
      else if k = "download" then some ⟨45⟩
      else if k = "upload" then some ⟨7⟩
      else none⟩
    err := none }

/-- A successful provider result whose map has the key `"download"` only. -/
def downloadOnlyReading : ProviderResult :=
  { metrics := ⟨fun k => if k = "download" then some ⟨9⟩ else none⟩
    err := none }

/-- A failed provider call (nil map, non-nil error). -/
def failedCall : ProviderResult :=
  { metrics := ⟨fun _ => none⟩
    err := some "timeout" }

/-- A loop state whose gauges already hold non-zero values. -/
def warmState : LoopState :=
  { gauges :=
      { ping := (newGauges.ping).Set ⟨1⟩
        download := (newGauges.download).Set ⟨2⟩
        upload := (newGauges.upload).Set ⟨3⟩ }
    trace := [] }

/-- The default flag values of the source, with fixed discovery URLs. -/
def defaultFlags : Flags :=
  { showVersion := false
    listenAddress := ":9112"
    metricsPath := "/metrics"
    configURL := "http://c.speedtest.net/speedtest-config.php?x=a"
    serverURL := "http://c.speedtest.net/speedtest-servers-static.php?x=b" }

/-- An environment in which the provider is constructed and the server keeps
serving. -/
def goodEnv : Env :=
  { version := "0.2.0"
    promInfo := "(version=0.2.0)"
    buildContext := "(go=go1.8)"
    newClient := fun _ _ => ⟨some ⟨1⟩, none⟩
    listenAndServe := fun _ => none
    muxPatterns :=
      [ "/debug/pprof/", "/debug/pprof/cmdline", "/debug/pprof/profile",
        "/debug/pprof/symbol", "/debug/pprof/trace" ] }

/-- An environment in which `speedtest.NewClient` returns a nil client and a
nil error. -/
def nilClientEnv : Env :=
  { goodEnv with newClient := fun _ _ => ⟨none, none⟩ }

/-- An environment in which `speedtest.NewClient` returns an error. -/
def brokenEnv : Env :=
  { goodEnv with newClient := fun _ _ => ⟨none, some "no route to host"⟩ }

/-! ## Lemmas on the loop -/

theorem forStep_eq (s : LoopState) (r : ProviderResult) :
    forStep s r =
      some ⟨s.gauges.applyAll (loopBody r).events, s.trace ++ (loopBody r).events⟩ := by
  unfold forStep
  cases h : r.err <;> simp [loopBody, h]

theorem applyAll_failure (g : Gauges) (r : ProviderResult) (h : r.err ≠ none) :
    g.applyAll (loopBody r).events = g := by
  cases he : r.err with
  | none => exact absurd he h
  | some e => simp [loopBody, he, Gauges.applyAll, Gauges.apply]

theorem applyAll_success (g : Gauges) (r : ProviderResult) (h : r.err = none) :
    g.applyAll (loopBody r).events =
      { ping := g.ping.Set (r.metrics.index "ping")
        download := g.download.Set (r.metrics.index "download")
        upload := g.upload.Set (r.metrics.index "upload") } := by
  simp [loopBody, h, Gauges.applyAll, Gauges.apply]

theorem runLoop_append (s : LoopState) (as bs : List ProviderResult) :
    runLoop s (as ++ bs) = (runLoop s as).bind (fun s' => runLoop s' bs) := by
  induction as generalizing s with
  | nil => simp [runLoop]
  | cons a as ih => simp [runLoop, forStep_eq, ih]

theorem runLoop_total (s : LoopState) (rs : List ProviderResult) :
    ∃ s', runLoop s rs = some s' := by
  induction rs generalizing s with
  | nil => exact ⟨s, rfl⟩
  | cons r rs ih => simpa [runLoop, forStep_eq] using ih _

theorem runLoop_failures (s : LoopState) (rs : List ProviderResult)
    (h : ∀ x ∈ rs, x.err ≠ none) :
    ∃ s', runLoop s rs = some s' ∧ s'.gauges = s.gauges := by
  induction rs generalizing s with
  | nil => exact ⟨s, rfl, rfl⟩
  | cons r rs ih =>
    have hr : r.err ≠ none := h r (List.mem_cons_self r rs)
    obtain ⟨s', hs', hg⟩ :=
      ih ⟨s.gauges.applyAll (loopBody r).events, s.trace ++ (loopBody r).events⟩
        (fun x hx => h x (List.mem_cons_of_mem r hx))
    refine ⟨s', ?_, ?_⟩
    · simpa [runLoop, forStep_eq] using hs'
    · rw [hg]
      exact applyAll_failure s.gauges r hr

theorem runLoop_trace (s s' : LoopState) (rs : List ProviderResult)
    (h : runLoop s rs = some s') : ∃ t, s'.trace = s.trace ++ t := by
  induction rs generalizing s with
  | nil =>
    simp only [runLoop, Option.some.injEq] at h
    exact ⟨[], by simp [h]⟩
  | cons r rs ih =>
    simp only [runLoop, forStep_eq] at h
    obtain ⟨t, ht⟩ := ih _ h
    exact ⟨(loopBody r).events ++ t, by simpa [List.append_assoc] using ht⟩

/-! ## The loop and the gauges -/

/-- C1, failure isolation: in an iteration whose provider call returns an
error the loop goes on, the gauges afterwards are the gauges before, and no
`Set` is among the calls the iteration makes. -/
theorem failure_keeps_gauges (s : LoopState) (r : ProviderResult) (h : r.err ≠ none) :
    ∃ s', forStep s r = some s' ∧ s'.gauges = s.gauges ∧
      s'.trace = s.trace ++ (loopBody r).events ∧
      ∀ e ∈ (loopBody r).events, isSet e = false := by
  refine ⟨_, forStep_eq s r, applyAll_failure s.gauges r h, rfl, ?_⟩
  cases he : r.err with
  | none => exact absurd he h
  | some e => simp [loopBody, he, isSet]

/-- Witness of C1: a failed call on gauges that hold 1, 2 and 3. -/
theorem failure_keeps_gauges_witness :
    failedCall.err ≠ none ∧
    ∃ s', forStep warmState failedCall = some s' ∧ s'.gauges = warmState.gauges ∧
      s'.trace = warmState.trace ++ (loopBody failedCall).events ∧
      ∀ e ∈ (loopBody failedCall).events, isSet e = false :=
  ⟨by decide, failure_keeps_gauges warmState failedCall (by decide)⟩

/-- C2, write-then-read: in an iteration whose provider call succeeds with the
reading ping `p`, download `d`, upload `u`, the gauges afterwards hold exactly
`p`, `d` and `u`, each under its own name, whatever they held before. -/
theorem success_writes_reading (s : LoopState) (r : ProviderResult) (p d u : Float64)
    (herr : r.err = none) (hp : r.metrics.lookup "ping" = some p)
    (hd : r.metrics.lookup "download" = some d) (hu : r.metrics.lookup "upload" = some u) :
    ∃ s', forStep s r = some s' ∧
      s'.gauges.ping = ⟨s.gauges.ping.opts, p⟩ ∧
      s'.gauges.download = ⟨s.gauges.download.opts, d⟩ ∧
      s'.gauges.upload = ⟨s.gauges.upload.opts, u⟩ := by
  refine ⟨_, forStep_eq s r, ?_, ?_, ?_⟩ <;>
    simp [applyAll_success s.gauges r herr, MetricsMap.index, Gauge.Set, hp, hd, hu]

/-- Witness of C2: the reading 12, 45, 7 written over gauges that hold 1, 2, 3. -/
theorem success_writes_reading_witness :
    fullReading.err = none ∧
    ∃ s', forStep warmState fullReading = some s' ∧
      s'.gauges.ping = ⟨warmState.gauges.ping.opts, ⟨12⟩⟩ ∧
      s'.gauges.download = ⟨warmState.gauges.download.opts, ⟨45⟩⟩ ∧
      s'.gauges.upload = ⟨warmState.gauges.upload.opts, ⟨7⟩⟩ :=
  ⟨rfl, success_writes_reading warmState fullReading ⟨12⟩ ⟨45⟩ ⟨7⟩ rfl (by decide) (by decide)
    (by decide)⟩

/-- C3, gauge invariant over whole runs: from the freshly created gauges, the
loop gets through every finite sequence of provider results; when no result
is a success all three gauges hold zero, and otherwise each gauge holds the
field of its name of the last successful result. -/
theorem gauges_hold_last_success (rs : List ProviderResult) :
    ∃ s', runLoop LoopState.start rs = some s' ∧
      ((∀ x ∈ rs, x.err ≠ none) →
        s'.gauges.ping.value = Float64.zero ∧
        s'.gauges.download.value = Float64.zero ∧
        s'.gauges.upload.value = Float64.zero) ∧
      (∀ pre r post, rs = pre ++ r :: post → r.err = none → (∀ x ∈ post, x.err ≠ none) →
        s'.gauges.ping.value = r.metrics.index "ping" ∧
        s'.gauges.download.value = r.metrics.index "download" ∧
        s'.gauges.upload.value = r.metrics.index "upload") := by
  obtain ⟨s', hs'⟩ := runLoop_total LoopState.start rs
  refine ⟨s', hs', ?_, ?_⟩
  · intro hall
    obtain ⟨t, ht, hg⟩ := runLoop_failures LoopState.start rs hall
    rw [hs'] at ht
    cases ht
    rw [hg]
    exact ⟨rfl, rfl, rfl⟩
  · intro pre r post hrs hr hpost
    subst hrs
    obtain ⟨m, hm⟩ := runLoop_total LoopState.start pre
    obtain ⟨t, ht, hg⟩ :=
      runLoop_failures ⟨m.gauges.applyAll (loopBody r).events, m.trace ++ (loopBody r).events⟩
        post hpost
    have hrun : runLoop LoopState.start (pre ++ r :: post) = some t := by
      rw [runLoop_append, hm]
      simpa [runLoop, forStep_eq] using ht
    rw [hs'] at hrun
    cases hrun
    rw [hg]
    simp [applyAll_success m.gauges r hr, Gauge.Set]

/-- Witness of C3: a success, a success with the key `"download"` only, then a
failure leave the gauges at 0, 9, 0. -/
theorem gauges_hold_last_success_witness :
    ∃ s', runLoop LoopState.start [fullReading, downloadOnlyReading, failedCall] = some s' ∧
      s'.gauges.ping.value = ⟨0⟩ ∧ s'.gauges.download.value = ⟨9⟩ ∧
      s'.gauges.upload.value = ⟨0⟩ := by
  obtain ⟨s', hs', -, h⟩ :=
    gauges_hold_last_success [fullReading, downloadOnlyReading, failedCall]
  exact ⟨s', hs', h [fullReading] downloadOnlyReading [failedCall] rfl rfl (by decide)⟩

/-- C5, provider errors are not fatal: from every loop state and for every
provider result, success or error, the step yields a successor state (the loop
goes round again), the body leaves neither by `break` nor by an exit, and no
`os.Exit` is among the calls of the iteration. -/
theorem loop_survives_every_result (s : LoopState) (r : ProviderResult) :
    (∃ s', forStep s r = some s' ∧ s'.trace = s.trace ++ (loopBody r).events) ∧
    ((loopBody r).flow = Flow.fallthrough ∨ (loopBody r).flow = Flow.continueLoop) ∧
    (∀ c, Event.osExit c ∉ (loopBody r).events) := by
  refine ⟨⟨_, forStep_eq s r, rfl⟩, ?_, ?_⟩
  · cases he : r.err <;> simp [loopBody, he]
  · intro c
    cases he : r.err <;> simp [loopBody, he]

/-- C10, partial readings: in an iteration whose provider call returns no
error the loop makes all three `Set` calls, in the order ping, download,
upload, and then sleeps the interval; a gauge whose key the map lacks is
overwritten with zero, a gauge whose key is present takes the value of the map. -/
theorem missing_key_overwritten (s : LoopState) (r : ProviderResult) (herr : r.err = none) :
    ∃ s', forStep s r = some s' ∧
      (loopBody r).events =
        [ Event.log Level.info "Speedtest exporter starting",
          Event.networkMetrics,
          Event.set GaugeVar.ping (r.metrics.index "ping"),
          Event.set GaugeVar.download (r.metrics.index "download"),
          Event.set GaugeVar.upload (r.metrics.index "upload"),
          Event.log Level.info "Speedtest exporter finished",
          Event.sleep interval ] ∧
      (loopBody r).flow = Flow.fallthrough ∧
      (r.metrics.lookup "ping" = none → s'.gauges.ping.value = Float64.zero) ∧
      (r.metrics.lookup "download" = none → s'.gauges.download.value = Float64.zero) ∧
      (r.metrics.lookup "upload" = none → s'.gauges.upload.value = Float64.zero) ∧
      (∀ v, r.metrics.lookup "ping" = some v → s'.gauges.ping.value = v) ∧
      (∀ v, r.metrics.lookup "download" = some v → s'.gauges.download.value = v) ∧
      (∀ v, r.metrics.lookup "upload" = some v → s'.gauges.upload.value = v) := by
  refine ⟨_, forStep_eq s r, ?_, ?_, ?_, ?_, ?_, ?_, ?_, ?_⟩
  · simp [loopBody, herr]
  · simp [loopBody, herr]
  all_goals
    intros
    simp_all [applyAll_success s.gauges r herr, MetricsMap.index, Gauge.Set]

/-- Witness of C10: a map with the key `"download"` only, over gauges that
hold 1, 2 and 3, leaves them at 0, 9 and 0. -/
theorem missing_key_overwritten_witness :
    downloadOnlyReading.err = none ∧
    ∃ s', forStep warmState downloadOnlyReading = some s' ∧
      s'.gauges.ping.value = ⟨0⟩ ∧ s'.gauges.download.value = ⟨9⟩ ∧
      s'.gauges.upload.value = ⟨0⟩ := by
  obtain ⟨s', hs', -, -, hp, -, hu, -, hd, -⟩ :=
    missing_key_overwritten warmState downloadOnlyReading rfl
  exact ⟨rfl, s', hs', hp rfl, hd ⟨9⟩ rfl, hu rfl⟩

/-! ## Pacing of the loop -/

theorem loopBody_events_head (r : ProviderResult) :
    ∃ rest, (loopBody r).events =
      Event.log Level.info "Speedtest exporter starting" :: Event.networkMetrics :: rest := by
  cases he : r.err <;> simp [loopBody, he]

/-- C4, at the failing input: two failed provider calls in a row.  The trace
of the loop has the second call right after the error log line of the first,
with no sleep between the two calls, so the trace is not paced. -/
theorem failed_call_retried_without_wait :
    (runLoop LoopState.start [failedCall, failedCall]).map (fun s => s.trace) =
      some
        [ Event.log Level.info "Speedtest exporter starting",
          Event.networkMetrics,
          Event.log Level.error "Failed to gather metrics",
          Event.log Level.info "Speedtest exporter starting",
          Event.networkMetrics,
          Event.log Level.error "Failed to gather metrics" ] ∧
    (runLoop LoopState.start [failedCall, failedCall]).map (fun s => paced s.trace) =
      some false := by
  constructor <;> rfl

/-- C9 as stated fails: in the run with one successful provider result, the
provider call comes before any wait of an interval. -/
theorem first_call_not_after_wait :
    (runLoop LoopState.start [fullReading]).map (fun s => idleBeforeFirstCall s.trace) =
      some false := by
  rfl

/-- C9 as amended: the loop starts by measuring.  In every run of at least
one iteration the first provider call has only the start log line before it,
and no wait of an interval. -/
theorem first_call_at_loop_start (r : ProviderResult) (rs : List ProviderResult) :
    ∃ s', runLoop LoopState.start (r :: rs) = some s' ∧
      beforeFirstCall s'.trace = [Event.log Level.info "Speedtest exporter starting"] ∧
      idleBeforeFirstCall s'.trace = false := by
  obtain ⟨s', hs'⟩ := runLoop_total LoopState.start (r :: rs)
  refine ⟨s', hs', ?_⟩
  simp only [runLoop, forStep_eq] at hs'
  obtain ⟨t, ht⟩ := runLoop_trace _ _ _ hs'
  obtain ⟨rest, hrest⟩ := loopBody_events_head r
  have htrace : s'.trace =
      Event.log Level.info "Speedtest exporter starting" :: Event.networkMetrics ::
        (rest ++ t) := by
    rw [ht, hrest]
    simp [LoopState.start]
  rw [htrace]
  constructor
  · simp [beforeFirstCall, List.takeWhile]
  · simp [idleBeforeFirstCall, beforeFirstCall, List.takeWhile, isIntervalSleep]

/-! ## Startup -/

/-- C7, version flag: with `-version` set, whatever the other flags and
whatever the environment, `main` prints the version line and exits with code
0; it makes no other call, so it neither constructs the provider, nor
registers the gauges, nor starts the loop, nor opens a listener. -/
theorem version_flag_prints_and_exits (env : Env) (flags : Flags)
    (h : flags.showVersion = true) :
    main env flags =
      { events := [Event.printf ("Speedtest Prometheus exporter. v" ++ env.version ++ "\n"),
                   Event.osExit 0]
        outcome := Outcome.exited 0 } ∧
    (∀ a b, Event.newClient a b ∉ (main env flags).events) ∧
    (∀ gs, Event.mustRegister gs ∉ (main env flags).events) ∧
    Event.goLoop ∉ (main env flags).events ∧
    (∀ a, Event.listenAndServe a ∉ (main env flags).events) := by
  have hm : main env flags =
      { events := [Event.printf ("Speedtest Prometheus exporter. v" ++ env.version ++ "\n"),
                   Event.osExit 0]
        outcome := Outcome.exited 0 } := by
    simp [main, h]
  refine ⟨hm, ?_, ?_, ?_, ?_⟩ <;> simp [hm]

/-- Witness of C7: `-version` with the other flags at their defaults, in an
environment where the provider could not have been constructed. -/
theorem version_flag_prints_and_exits_witness :
    main brokenEnv { defaultFlags with showVersion := true } =
      { events := [Event.printf "Speedtest Prometheus exporter. v0.2.0\n", Event.osExit 0]
        outcome := Outcome.exited 0 } :=
  (version_flag_prints_and_exits brokenEnv { defaultFlags with showVersion := true } rfl).1

/-- C6 as stated fails: without `-version`, with a client and no error from
`speedtest.NewClient`, the telemetry path `"/"` makes the registration of the
landing page panic, and `main` ends with exit code 2 without a listener. -/
theorem root_telemetry_path_opens_no_listener :
    ({ defaultFlags with metricsPath := "/" } : Flags).showVersion = false ∧
    (goodEnv.newClient defaultFlags.configURL defaultFlags.serverURL).err = none ∧
    (goodEnv.newClient defaultFlags.configURL defaultFlags.serverURL).client ≠ none ∧
    main goodEnv { defaultFlags with metricsPath := "/" } =
      { events :=
          [ Event.log Level.info "Starting speedtest exporter (version=0.2.0)",
            Event.log Level.info "Build context (go=go1.8)",
            Event.newClient defaultFlags.configURL defaultFlags.serverURL,
            Event.log Level.info "Register exporter",
            Event.mustRegister [GaugeVar.ping, GaugeVar.upload, GaugeVar.download],
            Event.goLoop,
            Event.httpHandle "/",
            Event.httpHandleFunc "/",
            Event.panicked ]
        outcome := Outcome.exited 2 } ∧
    (∀ a, Event.listenAndServe a ∉ (main goodEnv { defaultFlags with metricsPath := "/" }).events) := by
  refine ⟨rfl, rfl, by decide, by decide, ?_⟩
  intro a
  have hm : (main goodEnv { defaultFlags with metricsPath := "/" }).events =
      [ Event.log Level.info "Starting speedtest exporter (version=0.2.0)",
        Event.log Level.info "Build context (go=go1.8)",
        Event.newClient defaultFlags.configURL defaultFlags.serverURL,
        Event.log Level.info "Register exporter",
        Event.mustRegister [GaugeVar.ping, GaugeVar.upload, GaugeVar.download],
        Event.goLoop,
        Event.httpHandle "/",
        Event.httpHandleFunc "/",
        Event.panicked ] := by decide
  simp [hm]

/-- C6 as amended, startup-fatal provider failure: without `-version`, when
`speedtest.NewClient` returns an error, or no error and a nil client, `main`
exits with code 1, the exit is its last call, and no registration of the
gauges, no start of the loop and no listener comes before it; with a client
and no error `main` goes on to register the gauges and start the loop, in
this order, and then, when the telemetry path is not empty, is not `"/"` and
is not a pattern already on the mux (nor is `"/"`), to open the listener; when
it is not so, a route registration panics and `main` ends with exit code 2
without a listener. -/
theorem newClient_failure_is_fatal (env : Env) (flags : Flags)
    (h : flags.showVersion = false) :
    ((env.newClient flags.configURL flags.serverURL).err ≠ none ∨
        (env.newClient flags.configURL flags.serverURL).client = none →
      (main env flags).outcome = Outcome.exited 1 ∧
      (main env flags).events.getLast? = some (Event.osExit 1) ∧
      (∀ gs, Event.mustRegister gs ∉ (main env flags).events) ∧
      Event.goLoop ∉ (main env flags).events ∧
      (∀ a, Event.listenAndServe a ∉ (main env flags).events)) ∧
    ((env.newClient flags.configURL flags.serverURL).err = none ∧
        (env.newClient flags.configURL flags.serverURL).client ≠ none →
      (∃ pre post, (main env flags).events =
        pre ++
          [ Event.mustRegister [GaugeVar.ping, GaugeVar.upload, GaugeVar.download],
            Event.goLoop,
            Event.httpHandle flags.metricsPath ] ++ post) ∧
      (flags.metricsPath ≠ "" ∧ flags.metricsPath ≠ "/" ∧
          flags.metricsPath ∉ env.muxPatterns ∧ "/" ∉ env.muxPatterns →
        ∃ pre post, (main env flags).events =
          pre ++
            [ Event.mustRegister [GaugeVar.ping, GaugeVar.upload, GaugeVar.download],
              Event.goLoop,
              Event.httpHandle flags.metricsPath,
              Event.httpHandleFunc "/",
              Event.log Level.info ("Listening on " ++ flags.listenAddress),
              Event.listenAndServe flags.listenAddress ] ++ post) ∧
      (¬ (flags.metricsPath ≠ "" ∧ flags.metricsPath ≠ "/" ∧
          flags.metricsPath ∉ env.muxPatterns ∧ "/" ∉ env.muxPatterns) →
        (main env flags).outcome = Outcome.exited 2 ∧
        (main env flags).events.getLast? = some Event.panicked ∧
        (∀ a, Event.listenAndServe a ∉ (main env flags).events))) := by
  constructor
  · intro hfail
    cases he : (env.newClient flags.configURL flags.serverURL).err with
    | some e => simp [main, h, he]
    | none =>
      cases hc : (env.newClient flags.configURL flags.serverURL).client with
      | none => simp [main, h, he, hc]
      | some c => simp [he, hc] at hfail
  · rintro ⟨he, hc⟩
    cases hcl : (env.newClient flags.configURL flags.serverURL).client with
    | none => exact absurd hcl hc
    | some c =>
      have hm : ∃ tl, (main env flags).events =
          [ Event.log Level.info ("Starting speedtest exporter " ++ env.promInfo),
            Event.log Level.info ("Build context " ++ env.buildContext),
            Event.newClient flags.configURL flags.serverURL,
            Event.log Level.info "Register exporter",
            Event.mustRegister [GaugeVar.ping, GaugeVar.upload, GaugeVar.download],
            Event.goLoop,
            Event.httpHandle flags.metricsPath ] ++ tl ∧
          ((muxAccepts env.muxPatterns flags.metricsPath = true ∧
              muxAccepts (flags.metricsPath :: env.muxPatterns) "/" = true) →
            ∃ post, tl =
              [ Event.httpHandleFunc "/",
                Event.log Level.info ("Listening on " ++ flags.listenAddress),
                Event.listenAndServe flags.listenAddress ] ++ post) ∧
          (¬ (muxAccepts env.muxPatterns flags.metricsPath = true ∧
              muxAccepts (flags.metricsPath :: env.muxPatterns) "/" = true) →
            (main env flags).outcome = Outcome.exited 2 ∧
            (main env flags).events.getLast? = some Event.panicked ∧
            (∀ a, Event.listenAndServe a ∉ (main env flags).events)) := by
        by_cases h1 : muxAccepts env.muxPatterns flags.metricsPath = true
        · by_cases h2 : muxAccepts (flags.metricsPath :: env.muxPatterns) "/" = true
          · cases hl : env.listenAndServe flags.listenAddress with
            | none =>
              exact ⟨_, by simp [main, h, he, hcl, hl, h1, h2], fun _ => ⟨[], rfl⟩,
                fun hn => absurd ⟨h1, h2⟩ hn⟩
            | some e =>
              exact ⟨_, by simp [main, h, he, hcl, hl, h1, h2],
                fun _ => ⟨[Event.log Level.fatal e, Event.osExit 1], rfl⟩,
                fun hn => absurd ⟨h1, h2⟩ hn⟩
          · exact ⟨[Event.httpHandleFunc "/", Event.panicked],
              by simp [main, h, he, hcl, h1, h2], fun hok => absurd hok.2 h2,
              fun _ => by simp [main, h, he, hcl, h1, h2]⟩
        · exact ⟨[Event.panicked], by simp [main, h, he, hcl, h1],
            fun hok => absurd hok.1 h1, fun _ => by simp [main, h, he, hcl, h1]⟩
      have hiff : (flags.metricsPath ≠ "" ∧ flags.metricsPath ≠ "/" ∧
            flags.metricsPath ∉ env.muxPatterns ∧ "/" ∉ env.muxPatterns) ↔
          (muxAccepts env.muxPatterns flags.metricsPath = true ∧
            muxAccepts (flags.metricsPath :: env.muxPatterns) "/" = true) := by
        simp only [muxAccepts, Bool.and_eq_true, decide_eq_true_eq, Bool.not_eq_true',
          List.contains_eq_any_beq, List.any_eq_false, beq_iff_eq, List.mem_cons,
          forall_eq_or_imp, ne_eq]
        constructor
        · rintro ⟨ha, hb, hc', hd⟩
          exact ⟨⟨ha, fun x hx hxe => hc' (hxe ▸ hx)⟩, by decide,
            fun hx => hb hx.symm, fun x hx hxe => hd (hxe ▸ hx)⟩
        · rintro ⟨⟨ha, hc'⟩, -, hb, hd⟩
          exact ⟨ha, fun hx => hb hx.symm, fun hx => hc' _ hx rfl, fun hx => hd _ hx rfl⟩
      obtain ⟨tl, hev, hgood, hbad⟩ := hm
      refine ⟨⟨[ Event.log Level.info ("Starting speedtest exporter " ++ env.promInfo),
            Event.log Level.info ("Build context " ++ env.buildContext),
            Event.newClient flags.configURL flags.serverURL,
            Event.log Level.info "Register exporter" ], tl, by rw [hev]; rfl⟩, ?_, ?_⟩
      · intro hok
        obtain ⟨post, hpost⟩ := hgood (hiff.mp hok)
        exact ⟨[ Event.log Level.info ("Starting speedtest exporter " ++ env.promInfo),
            Event.log Level.info ("Build context " ++ env.buildContext),
            Event.newClient flags.configURL flags.serverURL,
            Event.log Level.info "Register exporter" ], post, by rw [hev, hpost]; rfl⟩
      · intro hn
        exact hbad (fun hacc => hn (hiff.mpr hacc))

/-- Witness of C6: a nil client and a returned error both end in exit code 1,
a constructed client with the default telemetry path leads on to registration,
loop and listener, and with a telemetry path that `net/http/pprof` has taken
it ends in exit code 2. -/
theorem newClient_failure_is_fatal_witness :
    (main nilClientEnv defaultFlags).outcome = Outcome.exited 1 ∧
    (main brokenEnv defaultFlags).outcome = Outcome.exited 1 ∧
    (∃ pre post, (main goodEnv defaultFlags).events =
      pre ++
        [ Event.mustRegister [GaugeVar.ping, GaugeVar.upload, GaugeVar.download],
          Event.goLoop,
          Event.httpHandle "/metrics",
          Event.httpHandleFunc "/",
          Event.log Level.info ("Listening on " ++ ":9112"),
          Event.listenAndServe ":9112" ] ++ post) ∧
    (main goodEnv { defaultFlags with metricsPath := "/debug/pprof/" }).outcome =
      Outcome.exited 2 :=
  ⟨((newClient_failure_is_fatal nilClientEnv defaultFlags rfl).1 (Or.inr rfl)).1,
   ((newClient_failure_is_fatal brokenEnv defaultFlags rfl).1 (Or.inl (by decide))).1,
   ((newClient_failure_is_fatal goodEnv defaultFlags rfl).2 ⟨rfl, by decide⟩).2.1 (by decide),
   (((newClient_failure_is_fatal goodEnv { defaultFlags with metricsPath := "/debug/pprof/" }
      rfl).2 ⟨rfl, by decide⟩).2.2 (by decide)).1⟩

/-! ## Landing page -/

/-- C8, landing page link: for every telemetry path `P` the body the handler
of `"/"` writes contains the anchor whose link target is exactly `P`, and the
body is the same for every request and whatever the gauges hold. -/
theorem landing_page_links_metrics (P : String) :
    (∀ g r, ∃ pre post, rootHandler P g r = pre ++ metricsAnchor P ++ post) ∧
    (∀ g₁ g₂ r₁ r₂, rootHandler P g₁ r₁ = rootHandler P g₂ r₂) := by
  refine ⟨fun g r => ?_, fun _ _ _ _ => rfl⟩
  refine ⟨"<html>\n             <head><title>Speedtest Exporter</title></head>\n             <body>\n             <h1>Speedtest Exporter</h1>\n             <p>",
    "</p>\n             </body>\n             </html>", ?_⟩
  have h1 : pageHead =
      "<html>\n             <head><title>Speedtest Exporter</title></head>\n             <body>\n             <h1>Speedtest Exporter</h1>\n             <p>" ++
        "<a href=\x27" := by decide
  have h2 : pageTail =
      "\x27>Metrics</a>" ++ "</p>\n             </body>\n             </html>" := by decide
  simp only [rootHandler, metricsAnchor, h1, h2, String.append_assoc]

end SpeedtestExporter
